import Mathlib

set_option maxRecDepth 100000

/-!
Verification development for the per-zone load-forecasting pipeline in
`prediction.py`.  Pure functions of the source are embedded as Lean
functions over exact rationals (the source works in IEEE doubles; the
properties settled here are structural and hold exactly over rationals).
Pandas and numpy list/slice semantics are reproduced explicitly:
Python negative slicing clamps to the list bounds, `np.rint` rounds
half to even, `Series.argmax` returns the first position of the
maximum and raises on an empty series, and `np.reshape(-1, 24)`
requires the length to be a multiple of 24.
-/

/-- TBASE = 18.0 from prediction.py. -/
def TBASE : ℚ := 18

/-- CDH from prediction.py lines 245 and 274: `(temp - TBASE).clip(lower=0)`. -/
def cdh (t : ℚ) : ℚ := max (t - TBASE) 0

/-- HDH from prediction.py lines 246 and 275: `(TBASE - temp).clip(lower=0)`. -/
def hdh (t : ℚ) : ℚ := max (TBASE - t) 0

/-- The fixed exogenous column list of prediction.py lines 254 and 278. -/
def exogCols : List String :=
  ["CDH", "HDH", "dow_1", "dow_2", "dow_3", "dow_4", "dow_5", "dow_6"]

/-- An exogenous matrix: named columns plus one feature row per time step
(the shape shared by the training and the future exogenous data frames). -/
structure ExogMatrix where
  cols : List String
  rows : List (List ℚ)
deriving DecidableEq

/-- One row of the live weather frame: the datetime index and the
`temp_at_time_t` value.  Timestamps are modelled as whole hours since a
Monday-midnight epoch, so pandas `dt.dayofweek` becomes `time / 24 % 7`. -/
structure WeatherRow where
  time : ℕ
  temp : ℚ
deriving DecidableEq

/-- pandas `dt.dayofweek` (0 = Monday .. 6 = Sunday) on the hour-since-
Monday-midnight timestamp model. -/
def dayOfWeek (t : ℕ) : ℕ := t / 24 % 7

/-- The distinct day-of-week values present in the weather frame, in
ascending order: the categories `pd.get_dummies` creates columns for. -/
def presentDows (w : List WeatherRow) : List ℕ :=
  (List.range 7).filter (fun d => d ∈ w.map (fun r => dayOfWeek r.time))

/-- The dummy columns `pd.get_dummies(..., drop_first=True)` actually
creates: one per present category except the first (smallest) present
category, which is dropped.  Note that pandas drops the first category
that is present, not Monday specifically. -/
def dummyDows (w : List WeatherRow) : List ℕ := (presentDows w).drop 1

/-- Value of the `dow_k` column for one row after the zero-fill loop of
prediction.py lines 279-281: 1 when the column was created by
`get_dummies` and the row falls on day `k`, and 0 otherwise (absent
columns are explicitly zero-filled). -/
def dowFlag (w : List WeatherRow) (r : WeatherRow) (k : ℕ) : ℚ :=
  if dayOfWeek r.time = k ∧ k ∈ dummyDows w then 1 else 0

/-- One row of `df_temp[exog_cols]`: the eight columns in the fixed
canonical order of `exog_cols`. -/
def exogRow (w : List WeatherRow) (r : WeatherRow) : List ℚ :=
  [cdh r.temp, hdh r.temp,
   dowFlag w r 1, dowFlag w r 2, dowFlag w r 3,
   dowFlag w r 4, dowFlag w r 5, dowFlag w r 6]

/-- `build_exog_from_weather` (prediction.py lines 263-282).  The fetched
weather frame has its datetimes as the index (never as a `time` column),
so the sort branch of line 268 does not fire and rows keep their input
order.  The `today_local` argument is accepted but never read by the
source body. -/
def buildExogFromWeather (w : List WeatherRow) (todayLocal : ℕ) : ExogMatrix :=
  { cols := exogCols, rows := w.map (exogRow w) }

/-- Python truncating `int()` conversion on an exact rational. -/
def pyInt (q : ℚ) : ℤ := if 0 ≤ q then ⌊q⌋ else ⌈q⌉

/-- `np.rint`: round to nearest integer, halves to even. -/
def rint (q : ℚ) : ℤ :=
  if q - ⌊q⌋ < 1 / 2 then ⌊q⌋
  else if 1 / 2 < q - ⌊q⌋ then ⌊q⌋ + 1
  else if ⌊q⌋ % 2 = 0 then ⌊q⌋ else ⌊q⌋ + 1

/-- `mean_forecast.iloc[-(24*10):-(24*9)]` (prediction.py line 359) with
Python clamping slice semantics: for a sequence of length `n` the slice
runs over positions `[max 0 (n-240), max 0 (n-216))`; natural-number
subtraction performs exactly that clamping. -/
def lastDayWindow (mf : List ℚ) : List ℚ :=
  (mf.drop (mf.length - 24 * 10)).take ((mf.length - 24 * 9) - (mf.length - 24 * 10))

/-- Tail-position scan behind `argmaxIdx`: carries the best value, the
position of its first occurrence, and the position of the next element. -/
def argmaxAux (best : ℚ) (bestIdx i : ℕ) : List ℚ → ℕ
  | [] => bestIdx
  | x :: xs => if best < x then argmaxAux x i (i + 1) xs else argmaxAux best bestIdx (i + 1) xs

/-- `pandas.Series.argmax`: the position of the first occurrence of the
maximum; raises (here: `none`) on an empty series. -/
def argmaxIdx : List ℚ → Option ℕ
  | [] => none
  | x :: xs => some (argmaxAux x 0 1 xs)

/-- Fuel-indexed worker behind `chunks24`; the fuel is always at least
the list length, so the fuel-exhausted branch is never reached. -/
def chunks24Go : ℕ → List ℚ → List (List ℚ)
  | _, [] => []
  | 0, _ :: _ => []
  | n + 1, x :: xs => (x :: xs).take 24 :: chunks24Go n ((x :: xs).drop 24)

/-- `np.reshape(-1, 24)` viewed as a chunking of the flat sequence into
consecutive 24-element groups (numpy additionally requires the length to
be an exact multiple of 24; the loop embedding checks that separately). -/
def chunks24 (l : List ℚ) : List (List ℚ) := chunks24Go l.length l

/-- Arithmetic mean of a list (`.mean(axis=-1)` on one 24-row). -/
def listMean (l : List ℚ) : ℚ := l.sum / (l.length : ℚ)

/-- `mean_forecast.values.reshape(-1, 24).mean(axis=-1)[-10:]`
(prediction.py line 367): the daily means of the forecast, restricted to
the last (at most) ten days; `[-10:]` is `drop (length - 10)` under
clamping natural subtraction. -/
def dailyMeans (mf : List ℚ) : List ℚ :=
  ((chunks24 mf).map listMean).drop (((chunks24 mf).map listMean).length - 10)

/-- `np.argsort(daily_mean)[::-1]` (prediction.py line 369): the indices
of the daily means sorted by descending value.  numpy leaves tie order
unspecified for its default sort kind; this embedding fixes insertion
order for ties, and every property proved about it either assumes
pairwise-distinct values or evaluates distinct-value inputs, where all
comparison sorts agree. -/
def argsortDesc (xs : List ℚ) : List ℕ :=
  List.insertionSort (fun i j => xs.getD j 0 ≤ xs.getD i 0) (List.range xs.length)

/-- `top_two = np.zeros(10); top_two[np.argsort(daily_mean)[::-1][:2]] = 1`
(prediction.py lines 366-369): a 10-slot binary vector flagging the two
top-ranked daily means. -/
def topTwoFlags (dm : List ℚ) : List ℚ :=
  (List.range 10).map (fun i => if i ∈ (argsortDesc dm).take 2 then 1 else 0)

/-- `top_two[0]` (prediction.py line 371), the value appended as the
anomaly indicator of a successful zone. -/
def anomalyFlag (mf : List ℚ) : ℚ := (topTwoFlags (dailyMeans mf)).headD 0

/-- The sentinel load curve `[-1]*24`. -/
def sentinelCurve : List ℤ := List.replicate 24 (-1)

/-- Per-zone inputs of one loop iteration, as seen at the decision points
of prediction.py lines 319-376: the fetched weather frame (`none` when
`fetch_live_weather_for_zone` returned `None`), whether the filtered
per-zone historical slice `df_zone` is empty, and the outcome of the
external SARIMAX construct/filter/forecast calls — an exception
(`Except.error`) or the predicted-mean sequence. -/
structure ZoneEnv where
  weather : Option (List WeatherRow)
  histEmpty : Bool
  fc : Except Unit (List ℚ)

/-- One iteration of the per-zone loop of `main` (prediction.py lines
308-376), returning the values this zone appends to the three
accumulators `all_zone_daily_loads`, `all_zone_peak_hours` and
`all_zone_top_two_days`, in append order.  The control flow reproduces
the source exactly, including the two statements that can still raise
after earlier appends already happened: `last_24.argmax()` raises on an
empty slice (after the load curve was appended on line 362), and
`reshape(-1, 24)` raises when the forecast length is not a multiple of
24 (after both the load curve and the peak hour were appended); the
`except` branch then appends its sentinels on top of those. -/
def zoneStep (env : ZoneEnv) : List (List ℤ) × List ℤ × List ℚ :=
  match env.weather with
  | none => ([sentinelCurve], [-1], [])
  | some w =>
    if w.isEmpty then ([sentinelCurve], [-1], [])
    else if env.histEmpty then ([sentinelCurve], [-1], [])
    else
      match env.fc with
      | Except.error _ => ([sentinelCurve], [-1], [-1])
      | Except.ok mf =>
        let loads := (lastDayWindow mf).map rint
        match argmaxIdx (lastDayWindow mf) with
        | none => ([loads, sentinelCurve], [-1], [-1])
        | some pk =>
          if mf.length % 24 = 0 then ([loads], [(pk : ℤ)], [anomalyFlag mf])
          else ([loads, sentinelCurve], [(pk : ℤ), -1], [-1])

/-- The whole per-zone loop: the three accumulators after processing the
given zones in discovery order. -/
def runLoop : List ZoneEnv → List (List ℤ) × List ℤ × List ℚ
  | [] => ([], [], [])
  | e :: rest =>
    ((zoneStep e).1 ++ (runLoop rest).1,
     (zoneStep e).2.1 ++ (runLoop rest).2.1,
     (zoneStep e).2.2 ++ (runLoop rest).2.2)

/-- The flat field list of prediction.py lines 378-385: the quoted date,
then every load value, then the peak hours, then the anomaly flags, each
numeric field rendered with `str(int(.))`. -/
def outputFields (dateStr : String) (res : List (List ℤ) × List ℤ × List ℚ) : List String :=
  ("\"" ++ dateStr ++ "\"") ::
    (res.1.flatten.map (fun x => toString x) ++
     res.2.1.map (fun x => toString x) ++
     res.2.2.map (fun q => toString (pyInt q)))

/-- The printed record: `",".join(fields)` (prediction.py line 387). -/
def outputRecord (dateStr : String) (res : List (List ℤ) × List ℤ × List ℚ) : String :=
  String.intercalate "," (outputFields dateStr res)

/-- The keys of the static `ZONE_LOCATIONS` registry (prediction.py
lines 20-54). -/
def zoneLocationKeys : List String :=
  ["COMED", "PSEG", "DOM", "BGE", "AEP", "AECO", "AEPAPT", "AEPIMP", "AEPKPT",
   "AEPOPT", "AP", "BC", "CE", "DAY", "DEOK", "DPLCO", "DUQ", "EASTON", "EKPC",
   "JC", "ME", "OE", "OVEC", "PAPWR", "PE", "PEPCO", "PLCO", "PN", "PS",
   "RECO", "SMECO", "UGI", "VMEU"]

/-- `fetch_live_weather_for_zone` (prediction.py lines 102-187): the
registry guard of lines 115-116 runs before any request is built; the
network interaction and response parsing of the remaining body are
abstracted into the `api` oracle (which returns `none` for request
failures and responses without hourly data). -/
def fetchLiveWeatherForZone (api : String → Option (List WeatherRow))
    (zone : String) : Option (List WeatherRow) :=
  if zone ∈ zoneLocationKeys then api zone else none

/-- The seasonal period of the model order `(1,0,0)x(1,1,1,24)`
(prediction.py lines 344-345). -/
def seasonalPeriod : ℕ := 24

/-- Modelled from the spec: the failure taxonomy of the State-Space
Forecaster (spec 4.3).  The forecaster implementation itself lives in
the external statsmodels library, not in this repository. -/
inductive ModelReconstructionError where
  | emptyHistory
  | insufficientHistory
  | exogMismatch
deriving DecidableEq

/-- Dot product of a coefficient list with an exogenous row. -/
def dotProd : List ℚ → List ℚ → ℚ
  | a :: as, b :: bs => a * b + dotProd as bs
  | _, _ => 0

/-- Modelled from the spec: the O(history length) filtering pass of spec
4.3, consuming the full historical series one observation at a time with
the given (not re-estimated) coefficients to arrive at a final internal
state.  The concrete numeric recursion inside statsmodels is not in this
repository; this linear recursion stands in for it, and no claim settled
here depends on its numeric values. -/
def filterHistory (params : List ℚ) : ℚ → List ℚ → ℚ
  | st, [] => st
  | st, y :: ys => filterHistory params (params.headD 0 * st + y) ys

/-- Modelled from the spec: the forecasting extension of spec 4.3 —
starting from the filtered state, produce one predicted mean per future
exogenous row, conditioning each step on the corresponding row and
threading the state forward. -/
def forecastSteps (params : List ℚ) : ℚ → List (List ℚ) → List ℚ
  | _, [] => []
  | st, row :: rows =>
    let m := params.headD 0 * st + dotProd (params.drop 1) row
    m :: forecastSteps params m rows

/-- Modelled from the spec: the State-Space Forecaster contract of spec
4.3, whose implementation (SARIMAX construction, filtering and
`get_forecast`) is the external statsmodels library and is absent from
src/.  It fails with a `ModelReconstructionError` when the history is
empty, when the history is shorter than the seasonal period (24) times
the minimal multiple, or when the future exogenous matrix does not carry
the same column names in the same order as the historical exogenous
matrix (a structural check on the column lists, not a length
comparison); otherwise it runs the filtering pass over the history and
returns one predicted mean per future exogenous row. -/
def forecastZone (minMult : ℕ) (params : List ℚ) (history : List ℚ)
    (histExog futureExog : ExogMatrix) : Except ModelReconstructionError (List ℚ) :=
  if history = [] then Except.error ModelReconstructionError.emptyHistory
  else if history.length < seasonalPeriod * minMult then
    Except.error ModelReconstructionError.insufficientHistory
  else if futureExog.cols ≠ histExog.cols then
    Except.error ModelReconstructionError.exogMismatch
  else Except.ok (forecastSteps params (filterHistory params 0 history) futureExog.rows)

/-- The day index the claim of C2 calls the first-ranked day, stated
from the claim wording for comparison with the code value `top_two[0]`:
the head of the descending ranking, i.e. the day with the highest daily
mean. -/
def firstRankedDay (dm : List ℚ) : ℕ := (argsortDesc dm).headD 0

/-- A zone iteration whose weather fetch returned `None`. -/
def envWeatherFail : ZoneEnv :=
  { weather := none, histEmpty := false, fc := Except.ok [] }

/-- A 240-step forecast whose ten daily means are 0,1,...,9: day 0 of
the ten-day window is not among the two highest-mean days. -/
def mfTen : List ℚ :=
  ((List.range 10).map (fun d => List.replicate 24 ((d : ℚ)))).flatten

/-- A 240-step forecast whose daily means are 9,0,1,...,8: day 0 of the
ten-day window has the highest daily mean. -/
def mfTop : List ℚ :=
  List.replicate 24 (9 : ℚ) ++
    ((List.range 9).map (fun d => List.replicate 24 ((d : ℚ)))).flatten

/-- A 250-step forecast (a weather window of 250 hourly rows, not a
whole number of days): steps 0,1,...,249. -/
def mfC4 : List ℚ := (List.range 250).map (fun i => (i : ℚ))

/-- 250 hourly weather rows. -/
def wC4 : List WeatherRow := (List.range 250).map (fun i => { time := i, temp := 20 })

/-- A zone iteration that reaches the forecast with a 250-step
predicted-mean sequence. -/
def envC4 : ZoneEnv := { weather := some wC4, histEmpty := false, fc := Except.ok mfC4 }

/-- 240 hourly weather rows (ten whole days). -/
def wC8 : List WeatherRow := (List.range 240).map (fun i => { time := i, temp := 20 })

/-- A fully successful zone iteration with a 240-step forecast. -/
def envC8ok : ZoneEnv := { weather := some wC8, histEmpty := false, fc := Except.ok mfTen }

/-- A two-zone run: the first zone fails its weather fetch, the second
succeeds. -/
def envsC8 : List ZoneEnv := [envWeatherFail, envC8ok]

/-- An exogenous matrix with the canonical columns and no rows. -/
def exogNoRows : ExogMatrix := { cols := exogCols, rows := [] }

/-- The modelled forecast produces exactly one predicted mean per future
exogenous row. -/
theorem forecastSteps_length (params : List ℚ) (st : ℚ) (rows : List (List ℚ)) :
    (forecastSteps params st rows).length = rows.length := by
  induction rows generalizing st with
  | nil => rfl
  | cons row rest ih => simp [forecastSteps, ih]

/-- C6: for every temperature, CDH and HDH are never simultaneously
positive, and CDH minus HDH equals the temperature minus the 18.0
baseline. -/
theorem cdh_hdh_relation (t : ℚ) :
    ¬(0 < cdh t ∧ 0 < hdh t) ∧ cdh t - hdh t = t - TBASE := by
  unfold cdh hdh
  rcases le_total t TBASE with h | h
  · rw [max_eq_right (by linarith), max_eq_left (by linarith)]
    exact ⟨fun hc => absurd hc.1 (lt_irrefl 0), by ring⟩
  · rw [max_eq_left (by linarith), max_eq_right (by linarith)]
    exact ⟨fun hc => absurd hc.2 (lt_irrefl 0), by ring⟩

/-- C10: the exogenous matrix built from a weather frame does not depend
on the `today_local` argument — the source body never reads it. -/
theorem buildExog_ignores_today_local (w : List WeatherRow) (t1 t2 : ℕ) :
    buildExogFromWeather w t1 = buildExogFromWeather w t2 := rfl

/-- C3: the modelled forecaster fails with a `ModelReconstructionError`
exactly when the history is empty, or shorter than the seasonal period
(24) times the minimal multiple, or the future exogenous column list
differs from the historical one (a structural column-name/order check,
so two matrices with equally many but differently named columns also
fail). -/
theorem forecastZone_error_iff (minMult : ℕ) (params history : List ℚ)
    (hE fE : ExogMatrix) :
    (∃ e, forecastZone minMult params history hE fE = Except.error e) ↔
      history = [] ∨ history.length < seasonalPeriod * minMult ∨ fE.cols ≠ hE.cols := by
  unfold forecastZone
  split_ifs with h1 h2 h3
  · simp [h1]
  · simp [h1, h2]
  · simp [h1, h2, h3]
  · simp [h1, h2, h3]

/-- C5: whenever the modelled forecaster returns a predicted-mean
sequence it has exactly one entry per future exogenous row, and on a
future matrix with zero rows (and valid history and matching columns) it
returns the empty sequence rather than an error. -/
theorem forecastZone_length_spec (minMult : ℕ) (params history : List ℚ)
    (hE fE : ExogMatrix) :
    (∀ l, forecastZone minMult params history hE fE = Except.ok l →
      l.length = fE.rows.length) ∧
    (fE.rows = [] → history ≠ [] → ¬history.length < seasonalPeriod * minMult →
      fE.cols = hE.cols → forecastZone minMult params history hE fE = Except.ok []) := by
  constructor
  · intro l hl
    unfold forecastZone at hl
    split_ifs at hl
    cases hl
    exact forecastSteps_length params _ fE.rows
  · intro h0 h1 h2 h3
    unfold forecastZone
    rw [if_neg h1, if_neg h2, if_neg (by simp [h3]), h0]
    rfl

/-- Witness for C5: a valid 24-observation history with an empty future
matrix yields the empty forecast without error. -/
theorem forecastZone_length_spec_witness :
    forecastZone 0 [1] [1] exogNoRows exogNoRows = Except.ok [] :=
  (forecastZone_length_spec 0 [1] [1] exogNoRows exogNoRows).2 rfl
    (by decide) (by decide) rfl

/-- C1: evaluating the loop on a single zone whose weather fetch failed.
The load-curve and peak-hour groups receive their one sentinel entry,
but the anomaly-flag group receives no entry at all for this zone, so
the three per-zone output groups do not all end with one entry per
discovered zone. -/
theorem weather_failure_drops_anomaly_slot :
    [envWeatherFail].length = 1 ∧
    (runLoop [envWeatherFail]).1.length = 1 ∧
    (runLoop [envWeatherFail]).2.1.length = 1 ∧
    (runLoop [envWeatherFail]).2.2.length = 0 :=
  ⟨rfl, rfl, rfl, rfl⟩

/-- C4: evaluating one zone whose forecast has 250 steps (a weather
window that is not a whole number of days).  The 24-value window and its
peak hour are appended, then the daily reshape raises and the except
branch appends the sentinels on top: the failed zone contributes two
load curves (the first not the sentinel one) and two peak-hour entries
instead of exactly the 24 values of -1 and peak -1 the claim states. -/
theorem nonmultiple_forecast_double_append :
    [envC4].length = 1 ∧
    (runLoop [envC4]).1.length = 2 ∧
    (runLoop [envC4]).1.getD 0 [] ≠ sentinelCurve ∧
    (runLoop [envC4]).2.1 = [23, -1] :=
  ⟨rfl, by with_unfolding_all rfl,
   of_decide_eq_true (by with_unfolding_all rfl), by with_unfolding_all rfl⟩

/-- C8: evaluating a two-zone run whose first zone fails its weather
fetch.  The output record carries only one anomaly-flag field for two
zones — 52 fields instead of the 1 + 2*24 + 2 + 2 = 53 the claimed
record layout requires. -/
theorem output_record_missing_flag_field :
    envsC8.length = 2 ∧
    (runLoop envsC8).2.2.length = 1 ∧
    (outputFields "2025-11-17" (runLoop envsC8)).length = 52 ∧
    (outputFields "2025-11-17" (runLoop envsC8)).length ≠
      1 + 24 * envsC8.length + envsC8.length + envsC8.length :=
  ⟨rfl, by with_unfolding_all rfl, by with_unfolding_all rfl,
   of_decide_eq_true (by with_unfolding_all rfl)⟩

/-- Counterexample for C2: on a forecast whose ten daily means are
0,1,...,9 the retained indicator `top_two[0]` is 0, while the flag of
the first-ranked (highest-mean) day is 1 — the code does not retain the
flag for the first-ranked day. -/
theorem anomaly_not_first_ranked_counterexample :
    anomalyFlag mfTen = 0 ∧
    (topTwoFlags (dailyMeans mfTen)).getD (firstRankedDay (dailyMeans mfTen)) 0 = 1 ∧
    (0 : ℚ) ≠ 1 :=
  ⟨by with_unfolding_all rfl, by with_unfolding_all rfl,
   of_decide_eq_true (by with_unfolding_all rfl)⟩

/-- C9: for a zone absent from the ZONE_LOCATIONS registry the weather
fetch returns `None` whatever the network would answer (the guard runs
before any request is built), and the loop then appends the sentinel
load curve and peak hour for that zone and processes the remaining zones
unchanged. -/
theorem unknown_zone_no_request_sentinel (api : String → Option (List WeatherRow))
    (zone : String) (h : zone ∉ zoneLocationKeys) (he : Bool)
    (fc : Except Unit (List ℚ)) (rest : List ZoneEnv) :
    fetchLiveWeatherForZone api zone = none ∧
    runLoop ({ weather := fetchLiveWeatherForZone api zone,
               histEmpty := he, fc := fc } :: rest) =
      (sentinelCurve :: (runLoop rest).1,
       (-1) :: (runLoop rest).2.1,
       (runLoop rest).2.2) := by
  have hf : fetchLiveWeatherForZone api zone = none := by
    unfold fetchLiveWeatherForZone
    rw [if_neg h]
  refine ⟨hf, ?_⟩
  simp [runLoop, zoneStep, hf]

/-- Witness for C9: the concrete zone code ZZZ with a network oracle that
would answer every request. -/
theorem unknown_zone_no_request_sentinel_witness :
    fetchLiveWeatherForZone (fun _ => some wC8) "ZZZ" = none ∧
    runLoop [{ weather := fetchLiveWeatherForZone (fun _ => some wC8) "ZZZ",
               histEmpty := false, fc := Except.ok [] }] =
      (sentinelCurve :: (runLoop []).1,
       (-1) :: (runLoop []).2.1,
       (runLoop []).2.2) :=
  unknown_zone_no_request_sentinel (fun _ => some wC8) "ZZZ" (by decide) false
    (Except.ok []) []

/-- C7: the built exogenous matrix always has exactly the eight columns
CDH, HDH, dow_1 .. dow_6 in that fixed order, and the dow column of a
day that never occurs in the input is all zeros in every row. -/
theorem buildExog_fixed_cols_zero_fill (w : List WeatherRow) (t k : ℕ)
    (hk1 : 1 ≤ k) (hk6 : k ≤ 6)
    (habs : ∀ r ∈ w, dayOfWeek r.time ≠ k) :
    (buildExogFromWeather w t).cols = exogCols ∧ exogCols.length = 8 ∧
    (buildExogFromWeather w t).rows.map (fun row => row.getD (k + 1) 0) =
      List.replicate w.length 0 := by
  refine ⟨rfl, rfl, ?_⟩
  show (w.map (exogRow w)).map _ = _
  rw [List.map_map]
  refine List.eq_replicate_iff.mpr ⟨by simp, ?_⟩
  intro b hb
  obtain ⟨r, hr, hrb⟩ := List.mem_map.mp hb
  have hne : dayOfWeek r.time ≠ k := habs r hr
  subst hrb
  interval_cases k <;>
    simp [exogRow, Function.comp, List.getD, dowFlag, hne]

/-- Witness for C7: a one-row Monday-only frame, checked for the dow_3
column. -/
theorem buildExog_fixed_cols_zero_fill_witness :
    (buildExogFromWeather [{ time := 0, temp := 20 }] 0).cols = exogCols ∧
    exogCols.length = 8 ∧
    (buildExogFromWeather [{ time := 0, temp := 20 }] 0).rows.map
      (fun row => row.getD 4 0) =
      List.replicate [({ time := 0, temp := 20 } : WeatherRow)].length 0 :=
  buildExog_fixed_cols_zero_fill [{ time := 0, temp := 20 }] 0 3
    (by decide) (by decide) (by decide)

/-- Chunking a list whose length is an exact multiple of 24 yields
exactly that many chunks (stated on the fuel-indexed worker). -/
theorem chunks24Go_length_mul :
    ∀ (fuel : ℕ) (l : List ℚ) (d : ℕ), l.length ≤ fuel → l.length = 24 * d →
      (chunks24Go fuel l).length = d := by
  intro fuel
  induction fuel with
  | zero =>
    intro l d hle hlen
    have hnil : l = [] := List.length_eq_zero.mp (Nat.le_zero.mp hle)
    subst hnil
    simp only [chunks24Go, List.length_nil]
    simp only [List.length_nil] at hlen
    omega
  | succ n ih =>
    intro l d hle hlen
    cases l with
    | nil =>
      simp only [chunks24Go, List.length_nil]
      simp only [List.length_nil] at hlen
      omega
    | cons x xs =>
      simp only [chunks24Go, List.length_cons]
      have hlen24 : (x :: xs).length = 24 * d := hlen
      have hpos : 1 ≤ d := by
        simp only [List.length_cons] at hlen24
        omega
      have hdrop : ((x :: xs).drop 24).length = 24 * (d - 1) := by
        rw [List.length_drop]
        simp only [List.length_cons] at hlen24 ⊢
        omega
      have hfuel : ((x :: xs).drop 24).length ≤ n := by
        rw [List.length_drop]
        simp only [List.length_cons] at hle ⊢
        omega
      rw [ih _ _ hfuel hdrop]
      omega

/-- `chunks24` on a list of length `24 * d` yields `d` chunks. -/
theorem chunks24_length_mul (l : List ℚ) (d : ℕ) (hlen : l.length = 24 * d) :
    (chunks24 l).length = d :=
  chunks24Go_length_mul l.length l d le_rfl hlen

/-- Pairwise-distinct list values give distinct `getD` reads at distinct
in-range positions. -/
theorem pairwise_ne_getD (l : List ℚ) (h : l.Pairwise (fun a b => a ≠ b)) :
    ∀ a b, a < l.length → b < l.length → a ≠ b → l.getD a 0 ≠ l.getD b 0 := by
  have key : ∀ x y, x < y → ∀ hy : y < l.length, l.getD x 0 ≠ l.getD y 0 := by
    intro x y hxy hy
    have hx : x < l.length := lt_trans hxy hy
    have hne := List.pairwise_iff_getElem.mp h x y hx hy hxy
    rw [List.getD_eq_getElem l 0 hx, List.getD_eq_getElem l 0 hy]
    exact hne
  intro a b ha hb hne
  rcases lt_trichotomy a b with h1 | h1 | h1
  · exact key a b h1 hb
  · exact absurd h1 hne
  · exact (key b a h1 ha).symm

/-- Ranking characterization of the argsort-based top-two selection: for
pairwise-distinct values, an in-range index lands in the first two
positions of the descending argsort exactly when at most one other index
holds a strictly larger value. -/
theorem mem_take_two_argsortDesc (xs : List ℚ)
    (hdist : ∀ a b, a < xs.length → b < xs.length → a ≠ b →
      xs.getD a 0 ≠ xs.getD b 0)
    (i : ℕ) (hi : i < xs.length) :
    i ∈ (argsortDesc xs).take 2 ↔
      ((List.range xs.length).filter
        (fun j => xs.getD i 0 < xs.getD j 0)).length ≤ 1 := by
  haveI htot : IsTotal ℕ (fun a b => xs.getD b 0 ≤ xs.getD a 0) :=
    ⟨fun _ _ => le_total _ _⟩
  haveI htrans : IsTrans ℕ (fun a b => xs.getD b 0 ≤ xs.getD a 0) :=
    ⟨fun _ _ _ hab hbc => le_trans hbc hab⟩
  have hperm : (argsortDesc xs).Perm (List.range xs.length) :=
    List.perm_insertionSort _ _
  have hsorted : (argsortDesc xs).Sorted (fun a b => xs.getD b 0 ≤ xs.getD a 0) :=
    List.sorted_insertionSort _ _
  have hnodup : (argsortDesc xs).Nodup := hperm.symm.nodup (List.nodup_range _)
  have hmemlt : ∀ a ∈ argsortDesc xs, a < xs.length := fun a ha =>
    List.mem_range.mp (hperm.subset ha)
  have him : i ∈ argsortDesc xs := hperm.mem_iff.mpr (List.mem_range.mpr hi)
  obtain ⟨u, v, huv⟩ := List.append_of_mem him
  rw [huv] at hperm hsorted hnodup hmemlt ⊢
  have hsplit := List.pairwise_append.mp hsorted
  have hui : ∀ a ∈ u, xs.getD i 0 ≤ xs.getD a 0 := fun a ha =>
    hsplit.2.2 a ha i (List.mem_cons_self i v)
  have hvi : ∀ b ∈ v, xs.getD b 0 ≤ xs.getD i 0 := fun b hb =>
    (List.pairwise_cons.mp hsplit.2.1).1 b hb
  have hnd := List.nodup_append.mp hnodup
  have hiu : i ∉ u := fun hmem => hnd.2.2 hmem (List.mem_cons_self i v)
  have hstrictu : ∀ a ∈ u, xs.getD i 0 < xs.getD a 0 := by
    intro a ha
    refine lt_of_le_of_ne (hui a ha) ?_
    refine hdist i a hi (hmemlt a (List.mem_append_left _ ha)) ?_
    rintro rfl
    exact hiu ha
  have hstrictv : ∀ b ∈ v, ¬xs.getD i 0 < xs.getD b 0 := fun b hb =>
    not_lt.mpr (hvi b hb)
  have hfil : (u ++ i :: v).filter (fun j => xs.getD i 0 < xs.getD j 0) = u := by
    rw [List.filter_append]
    have h3 : u.filter (fun j => decide (xs.getD i 0 < xs.getD j 0)) = u :=
      List.filter_eq_self.mpr (fun a ha => decide_eq_true (hstrictu a ha))
    have h4 : (i :: v).filter (fun j => decide (xs.getD i 0 < xs.getD j 0)) = [] := by
      refine List.filter_eq_nil_iff.mpr ?_
      intro b hb
      rcases List.mem_cons.mp hb with rfl | hbv
      · simp only [decide_eq_true_eq]
        exact lt_irrefl _
      · simp only [decide_eq_true_eq]
        exact hstrictv b hbv
    rw [h3, h4, List.append_nil]
  have hcount : ((List.range xs.length).filter
      (fun j => xs.getD i 0 < xs.getD j 0)).length = u.length := by
    have hlen := (hperm.filter (fun j => decide (xs.getD i 0 < xs.getD j 0))).length_eq
    rw [hfil] at hlen
    exact hlen.symm
  rw [hcount]
  rcases u with _ | ⟨a, _ | ⟨b, u2⟩⟩
  · simp
  · simp [List.take_succ_cons]
  · have hia : i ≠ a := by
      rintro rfl
      exact hiu (List.mem_cons_self _ _)
    have hib : i ≠ b := by
      rintro rfl
      exact hiu (List.mem_cons.mpr (Or.inr (List.mem_cons_self _ _)))
    simp [List.take_succ_cons, hia, hib]

/-- C2 (amended): on the success path (forecast length a multiple of 24
covering at least ten days) with pairwise-distinct daily means, the last
ten daily buckets are selected, and the retained anomaly indicator is
element 0 of the top-two flag vector — the flag of the earliest of those
ten days, which is 1 exactly when at most one other of the ten days has
a strictly larger daily mean — not the flag of the first-ranked
(highest-mean) day. -/
theorem anomaly_flag_is_first_day_topTwo (mf : List ℚ) (d : ℕ)
    (hlen : mf.length = 24 * d) (hd : 10 ≤ d)
    (hdist : (dailyMeans mf).Pairwise (fun a b => a ≠ b)) :
    (dailyMeans mf).length = 10 ∧
    (anomalyFlag mf = 1 ↔
      ((List.range (dailyMeans mf).length).filter
        (fun j => (dailyMeans mf).getD 0 0 < (dailyMeans mf).getD j 0)).length ≤ 1) := by
  have hchunks : (chunks24 mf).length = d := chunks24_length_mul mf d hlen
  have hdm : (dailyMeans mf).length = 10 := by
    unfold dailyMeans
    rw [List.length_drop, List.length_map, hchunks]
    omega
  refine ⟨hdm, ?_⟩
  have hhead : anomalyFlag mf =
      if 0 ∈ (argsortDesc (dailyMeans mf)).take 2 then (1 : ℚ) else 0 := rfl
  have hiff := mem_take_two_argsortDesc (dailyMeans mf)
    (pairwise_ne_getD _ hdist) 0 (by rw [hdm]; norm_num)
  rw [hhead]
  constructor
  · intro h1
    by_cases hm : 0 ∈ (argsortDesc (dailyMeans mf)).take 2
    · exact hiff.mp hm
    · rw [if_neg hm] at h1
      exact absurd h1 (by norm_num)
  · intro h2
    rw [if_pos (hiff.mpr h2)]

/-- Witness for C2 (amended): on the forecast whose daily means are
9,0,1,...,8 the earliest day has the highest mean and the retained
indicator is 1. -/
theorem anomaly_flag_is_first_day_topTwo_witness : anomalyFlag mfTop = 1 :=
  ((anomaly_flag_is_first_day_topTwo mfTop 10 (by with_unfolding_all rfl)
      (by decide)
      (of_decide_eq_true (by with_unfolding_all rfl))).2).mpr
    (of_decide_eq_true (by with_unfolding_all rfl))
